import Mathlib

/-!
Verification development for the art-brasil quote-to-PDF pipeline.

Shallow embedding of `src/types.ts`, `src/App.tsx` (cart operations) and
`src/services/pdfService.ts` (image resolver and document composer).
JS runtime values that may be absent, null or NaN at the erased-type level
are modelled with `Option`; JS numbers are modelled as `ℚ` (currency,
coordinates) or `Int` (ids, quantities, day numbers); JS truthiness of a
number is `≠ 0`, of a string is `≠ ""`, of an optional is `isSome` plus
the non-degenerate check of the payload.
-/

namespace ArtBrasil

/-- `Product` from src/types.ts: id, nome, cm, valor, imagem?. -/
structure Product where
  id : Int
  nome : String
  cm : String
  valor : ℚ
  imagem : Option String
deriving DecidableEq

/-- `BudgetItem extends Product` from src/types.ts, as the well-typed cart
item used by App.tsx (all fields present). -/
structure CartItem extends Product where
  quantity : Int
  total : ℚ
deriving DecidableEq

/-- The runtime shape of an item as `generatePDF` sees it: TypeScript types
are erased, so every field may be absent/null/NaN, modelled by `Option`.
Field names follow src/types.ts. -/
structure BudgetItem where
  id : Int
  nome : Option String
  cm : Option String
  valor : Option ℚ
  imagem : Option String
  quantity : Option Int
  total : Option ℚ
deriving DecidableEq

/-- `ClientInfo` from src/types.ts: name, phone, date (all strings, may be
empty, which is JS-falsy). -/
structure ClientInfo where
  name : String
  phone : String
  date : String
deriving DecidableEq

/-! ## Image resolver (`getBase64ImageFromURL`, pdfService.ts lines 9-44)

The environment of one resolver call is what the browser does with the
URL: the image load can succeed at some time (with canvas context either
available or not, and the canvas re-encoding either returning a data URL
or throwing), fail at some time, or never settle. -/

/-- Outcome of the browser's attempt to load one image URL.
`encoded` is the result of `canvas.toDataURL` in the onload handler:
`Except.error` models the handler body throwing (e.g. a tainted canvas). -/
inductive LoadEvent where
  | success (ctxAvailable : Bool) (encoded : Except String String) (time : ℚ)
  | failure (time : ℚ)
  | hang

/-- The settled state of the promise returned by `getBase64ImageFromURL`:
its resolved value (the promise never rejects), the time at which it
settled (seconds), and whether a network load was started. -/
structure ResolveOutcome where
  value : Option String
  time : ℚ
  networkAttempted : Bool
deriving DecidableEq

/-- Model of `url.startsWith('http')` (pdfService.ts line 11). -/
def hasHttpStart (u : String) : Bool :=
  match u.toList with
  | 'h' :: 't' :: 't' :: 'p' :: _ => true
  | _ => false

/-- The `try` block of the `img.onload` handler (lines 18-29): if no 2d
context, resolve null; otherwise serialize the canvas, which may throw. -/
def onloadTry (ctxAvailable : Bool) (encoded : Except String String) :
    Except String (Option String) :=
  if ctxAvailable then
    match encoded with
    | Except.ok s => Except.ok (some s)
    | Except.error e => Except.error e
  else Except.ok none

/-- The whole `img.onload` handler (lines 17-34): the `catch` collapses any
throw inside the `try` block to a resolved null. -/
def onloadHandler (ctxAvailable : Bool) (encoded : Except String String) :
    Option String :=
  match onloadTry ctxAvailable encoded with
  | Except.ok v => v
  | Except.error _ => none

/-- The guard of line 11: the input is not a string, is empty, or does not
start with `http`. -/
def invalidImageUrl (url : Option String) : Prop :=
  match url with
  | none => True
  | some u => u = "" ∨ hasHttpStart u = false

instance (url : Option String) : Decidable (invalidImageUrl url) := by
  unfold invalidImageUrl
  cases url with
  | none => exact inferInstanceAs (Decidable True)
  | some u => exact inferInstanceAs (Decidable (_ ∨ _))

/-- `getBase64ImageFromURL` (lines 9-44): the promise executor.  Invalid
input resolves null immediately with no network access; otherwise the
5-second `setTimeout` (line 42) races the load: the earlier settlement
fixes the promise value.  The function is total: the promise only ever
resolves, never rejects. -/
def getBase64ImageFromURL (url : Option String) (env : String → LoadEvent) :
    ResolveOutcome :=
  match url with
  | none => ⟨none, 0, false⟩
  | some u =>
    if u = "" ∨ hasHttpStart u = false then ⟨none, 0, false⟩
    else
      match env u with
      | LoadEvent.success ctxAvailable encoded t =>
          if t < 5 then ⟨onloadHandler ctxAvailable encoded, t, true⟩
          else ⟨none, 5, true⟩
      | LoadEvent.failure t =>
          if t < 5 then ⟨none, t, true⟩ else ⟨none, 5, true⟩
      | LoadEvent.hang => ⟨none, 5, true⟩

/-- The resolved value of one resolver call, as consumed by the composer
after the `Promise.all` join. -/
def resolveVal (env : String → LoadEvent) (u : String) : Option String :=
  (getBase64ImageFromURL (some u) env).value

/-! ## Issue date (pdfService.ts line 88)

`client.date ? new Date(client.date + 'T12:00:00').toLocaleDateString('pt-BR')
              : new Date().toLocaleDateString('pt-BR')`. -/

/-- A calendar date as year/month/day. -/
structure SDate where
  year : Nat
  month : Nat
  day : Nat
deriving DecidableEq

/-- What the header's date slot shows: a calendar date, or the
"Invalid Date" marker produced by rendering an unparsable `Date`. -/
inductive DateDisplay where
  | date (d : SDate)
  | invalid
deriving DecidableEq

/-- Numeric value of a decimal digit character. -/
def digitVal (c : Char) : Nat := c.toNat - '0'.toNat

/-- Gregorian leap-year rule, as used by JS `Date`. -/
def isLeapYear (y : Nat) : Bool :=
  (y % 4 == 0 && y % 100 != 0) || (y % 400 == 0)

/-- Number of days of month `m` in year `y`. -/
def daysInMonth (y m : Nat) : Nat :=
  if m = 2 then (if isLeapYear y then 29 else 28)
  else if m = 4 ∨ m = 6 ∨ m = 9 ∨ m = 11 then 30
  else 31

/-- Model of JS `new Date(s + 'T12:00:00')` succeeding: the ISO local
date-time parse requires `s` to be `YYYY-MM-DD` with an in-range month
and a day that exists in that month of that year (browsers treat e.g.
`2024-02-31` as an Invalid Date); anything else yields an Invalid Date. -/
def parseClientDate (s : String) : Option SDate :=
  match s.toList with
  | [y1, y2, y3, y4, h1, m1, m2, h2, d1, d2] =>
    if ([y1, y2, y3, y4, m1, m2, d1, d2].all Char.isDigit)
        && (h1 == '-') && (h2 == '-') then
      let y := 1000 * digitVal y1 + 100 * digitVal y2 + 10 * digitVal y3 + digitVal y4
      let mo := 10 * digitVal m1 + digitVal m2
      let da := 10 * digitVal d1 + digitVal d2
      if 1 ≤ mo ∧ mo ≤ 12 ∧ 1 ≤ da ∧ da ≤ daysInMonth y mo then some ⟨y, mo, da⟩
      else none
    else none
  | _ => none

/-- Line 88: a truthy (non-empty) `client.date` is parsed at local midday
and rendered; an empty one falls back to the current date `today`. -/
def issueDateDisplay (dateField : String) (today : SDate) : DateDisplay :=
  if dateField ≠ "" then
    match parseClientDate dateField with
    | some d => DateDisplay.date d
    | none => DateDisplay.invalid
  else DateDisplay.date today

/-- Epoch minute of `<day> T12:00:00` interpreted in the local timezone
whose offset from UTC is `tzMin` minutes (day counted as a day number). -/
def localMiddayEpochMin (day tzMin : Int) : Int := day * 1440 + 720 - tzMin

/-- The local calendar day that `toLocaleDateString` renders for an epoch
minute, in the same timezone.  For the positive divisor 1440, `Int` division
is floor division, matching JS date math. -/
def epochToLocalDay (epochMin tzMin : Int) : Int := (epochMin + tzMin) / 1440

/-! ## Filename (pdfService.ts lines 206-207) -/

/-- One step of `.replace(/[^a-z0-9]/gi, '_')`: a character outside
`[A-Za-z0-9]` is substituted with an underscore. -/
def sanitizeChar (c : Char) : Char := if c.isAlphanum then c else '_'

/-- Line 206: `(client.name || 'Cliente').replace(/[^a-z0-9]/gi, '_')
.substring(0, 30)`. -/
def cleanClientName (name : String) : String :=
  String.mk (((if name = "" then "Cliente" else name).toList.map sanitizeChar).take 30)

/-- Line 207: the saved filename. -/
def pdfFilename (client : ClientInfo) : String :=
  "Orcamento_" ++ cleanClientName client.name ++ ".pdf"

/-- Modelled from the spec (Step 8): the client-name part "stripped of
every character outside ASCII letters/digits, truncated to 30 characters"
— i.e. offending characters removed rather than substituted.  Comparison
definition for claim C4 only; the source definition is `cleanClientName`. -/
def specStrippedClientName (name : String) : String :=
  String.mk (((if name = "" then "Cliente" else name).toList.filter Char.isAlphanum).take 30)

/-! ## Composer pieces -/

/-- JS `v || dflt` for an optional string field: null/undefined and the
empty string are falsy. -/
def jsOrString (v : Option String) (dflt : String) : String :=
  match v with
  | some s => if s = "" then dflt else s
  | none => dflt

/-- `(item.total || 0)` summand: missing/null/NaN contribute zero
(a present numeric 0 is falsy but `0 || 0` is still 0). -/
def itemTotal (item : BudgetItem) : ℚ := item.total.getD 0

/-- Line 56: `validItems.reduce((sum, item) => sum + (item.total || 0), 0)`. -/
def totalPrice (validItems : List BudgetItem) : ℚ :=
  validItems.foldl (fun sum item => sum + itemTotal item) 0

/-- Model of `Intl.NumberFormat('pt-BR', currency BRL).format`. -/
def formatBRL (q : ℚ) : String := "R$ " ++ toString q.num ++ "/" ++ toString q.den

/-- Line 48: `[...(items || [])].filter(item => item && typeof item === 'object')`.
The outer `Option` is a null/undefined items argument; inner `none`s are
null/non-object entries, which are dropped. -/
def sanitizeItems (items : Option (List (Option BudgetItem))) : List BudgetItem :=
  (items.getD []).filterMap id

/-- The cache-population guard of line 62: `item && item.id && item.imagem`
(the item itself is always present inside `validItems`); a numeric id is
truthy iff nonzero, a string image reference iff non-empty. -/
def attemptsImage (item : BudgetItem) : Bool :=
  (item.id != 0) && (match item.imagem with
                     | some u => u != ""
                     | none => false)

/-- The image URLs handed to the resolver by the pre-load loop
(lines 60-66), in list order. -/
def itemImageAttempts (validItems : List BudgetItem) : List String :=
  validItems.filterMap (fun item => if attemptsImage item then item.imagem else none)

/-- The cache write produced by one item of the `Promise.all` loop:
`imageCache[item.id] = await getBase64ImageFromURL(item.imagem)` when the
guard holds, nothing otherwise. -/
def cacheEntry (r : String → Option String) (item : BudgetItem) :
    Option (Int × Option String) :=
  if attemptsImage item then item.imagem.map (fun u => (item.id, r u)) else none

/-- The `imageCache` record (line 59) after the join: one entry per item
that passed the guard, keyed by the item id. -/
def buildImageCache (r : String → Option String) (validItems : List BudgetItem) :
    List (Int × Option String) :=
  validItems.filterMap (cacheEntry r)

/-- JS record lookup `imageCache[i]`: `none` if no write happened for key
`i`, otherwise the last written value (which itself may be null). -/
def cacheLookup (cache : List (Int × Option String)) (i : Int) :
    Option (Option String) :=
  cache.foldl (fun acc e => if e.1 = i then some e.2 else acc) none

/-- One body row of the table (lines 112-119). -/
def itemRow (item : BudgetItem) : List String :=
  ["", jsOrString item.nome "Produto",
   jsOrString item.cm "0" ++ " cm",
   toString (item.quantity.getD 0),
   formatBRL (item.valor.getD 0),
   formatBRL (item.total.getD 0)]

/-- Lines 174-182: `footerY = finalY + 10`; if `footerY + 40 > pageHeight`
a page is added and the footer starts at 20, else it stays below the
table.  Returns (footer y position, whether a new page was added). -/
def footerPlacement (finalY pageHeight : ℚ) : ℚ × Bool :=
  let fy := finalY + 10
  if fy + 40 > pageHeight then (20, true) else (fy, false)

/-! ## The per-cell draw hook (lines 151-168) -/

inductive TableSection where
  | head
  | body
deriving DecidableEq

structure CellRect where
  x : ℚ
  y : ℚ
  width : ℚ
  height : ℚ
deriving DecidableEq

/-- The `data` argument autoTable passes to `didDrawCell`. -/
structure CellHookData where
  sec : TableSection
  colIndex : Nat
  rowIndex : Nat
  cell : CellRect
deriving DecidableEq

/-- One `doc.addImage` call issued by the hook. -/
structure PaintOp where
  image : String
  x : ℚ
  y : ℚ
  w : ℚ
  h : ℚ
deriving DecidableEq

/-- The `didDrawCell` hook (lines 151-168).  The result is the list of
addImage calls it performs; `Except.error` would be an uncaught JS throw
escaping into autoTable — the guards make that unreachable.
`validItems[rowIndex]` is JS array indexing, which yields undefined (not a
throw) out of range; the short-circuit `currentItem && currentItem.id`
then skips the property access that would have thrown.  Line 160's
`if (base64)` is JS string truthiness: a missing entry (undefined), a
null entry and an empty-string entry are all falsy and paint nothing. -/
def didDrawCell (validItems : List BudgetItem) (cache : List (Int × Option String))
    (data : CellHookData) : Except String (List PaintOp) :=
  if data.sec = TableSection.body ∧ data.colIndex = 0 then
    match validItems.get? data.rowIndex with
    | none => Except.ok []
    | some currentItem =>
      if currentItem.id ≠ 0 then
        match cacheLookup cache currentItem.id with
        | some (some base64) =>
            if base64 ≠ "" then
              Except.ok [{ image := base64,
                           x := data.cell.x + (data.cell.width - 18) / 2,
                           y := data.cell.y + (data.cell.height - 18) / 2,
                           w := 18, h := 18 }]
            else Except.ok []
        | _ => Except.ok []
      else Except.ok []
  else Except.ok []

/-! ## The composed document and `generatePDF` (lines 46-208) -/

/-- Line 70. -/
def logoUrl : String := "https://i.postimg.cc/dts7TZmg/ARTBRASIL.png"

/-- The content `generatePDF` draws into the jsPDF document once the
empty-cart precondition has passed. -/
structure GeneratedDoc where
  logo : Option String
  dateDisplay : DateDisplay
  clientNameText : String
  phoneText : Option String
  tableRows : List (List String)
  footerOnNewPage : Bool
  footerY : ℚ
  footerTotal : ℚ
  footerTotalText : String
deriving DecidableEq

/-- Observable effects of one `generatePDF` call. -/
structure GenResult where
  alerted : Bool
  doc : Option GeneratedDoc
  resolverCalls : List String
  savedFilename : Option String
deriving DecidableEq

/-- The document built by lines 55-203 for a non-empty sanitized list. -/
def composeDoc (validItems : List BudgetItem) (client : ClientInfo)
    (env : String → LoadEvent) (lastY : Option ℚ) (pageHeight : ℚ)
    (today : SDate) : GeneratedDoc :=
  { logo := resolveVal env logoUrl
    dateDisplay := issueDateDisplay client.date today
    clientNameText := if client.name = "" then "Consumidor Final" else client.name
    phoneText := if client.phone = "" then none
                 else some ("Contato: " ++ client.phone)
    tableRows := validItems.map itemRow
    footerOnNewPage := (footerPlacement (lastY.getD 150) pageHeight).2
    footerY := (footerPlacement (lastY.getD 150) pageHeight).1
    footerTotal := totalPrice validItems
    footerTotalText := formatBRL (totalPrice validItems) }

/-- `generatePDF` (lines 46-208).  `lastY` is `doc.lastAutoTable?.finalY`
(150 when absent, line 174); `pageHeight` is the page height the layout
engine reports; `today` is the current date; `env` is the network
behaviour of each URL. -/
def generatePDF (items : Option (List (Option BudgetItem))) (client : ClientInfo)
    (env : String → LoadEvent) (lastY : Option ℚ) (pageHeight : ℚ)
    (today : SDate) : GenResult :=
  if (sanitizeItems items).length = 0 then
    { alerted := true, doc := none, resolverCalls := [], savedFilename := none }
  else
    { alerted := false
      doc := some (composeDoc (sanitizeItems items) client env lastY pageHeight today)
      resolverCalls := itemImageAttempts (sanitizeItems items) ++ [logoUrl]
      savedFilename := some (pdfFilename client) }

/-! ## Cart operations (App.tsx lines 42-68) -/

/-- `addItem` (App.tsx lines 42-54). -/
def addItem (product : Product) (prev : List CartItem) : List CartItem :=
  if prev.any (fun item => item.id == product.id) then
    prev.map (fun item =>
      if item.id = product.id then
        { item with quantity := item.quantity + 1,
                    total := ((item.quantity + 1 : Int) : ℚ) * item.valor }
      else item)
  else prev ++ [{ product with quantity := 1, total := product.valor }]

/-- `updateQuantity` (App.tsx lines 60-68). -/
def updateQuantity (idv delta : Int) (prev : List CartItem) : List CartItem :=
  prev.map (fun item =>
    if item.id = idv then
      { item with quantity := max 1 (item.quantity + delta),
                  total := ((max 1 (item.quantity + delta) : Int) : ℚ) * item.valor }
    else item)

/-- The spec's LineItem invariant: total = quantity × unit price, with an
integer quantity of at least 1. -/
@[reducible] def itemInvariant (item : CartItem) : Prop :=
  item.total = (item.quantity : ℚ) * item.valor ∧ 1 ≤ item.quantity

/-! ## Helper lemmas -/

lemma foldl_add_map (f : BudgetItem → ℚ) :
    ∀ (l : List BudgetItem) (a : ℚ),
      l.foldl (fun sum item => sum + f item) a = a + (l.map f).sum := by
  intro l
  induction l with
  | nil => intro a; simp
  | cons x t ih =>
      intro a
      simp only [List.foldl_cons, List.map_cons, List.sum_cons]
      rw [ih]
      ring

lemma totalPrice_eq_sum (l : List BudgetItem) :
    totalPrice l = (l.map itemTotal).sum := by
  unfold totalPrice
  rw [foldl_add_map itemTotal]
  ring

lemma foldl_lookup_skip (i : Int) :
    ∀ (cache : List (Int × Option String)) (acc : Option (Option String)),
      (∀ e ∈ cache, e.1 ≠ i) →
      cache.foldl (fun acc e => if e.1 = i then some e.2 else acc) acc = acc := by
  intro cache
  induction cache with
  | nil => intro acc _; rfl
  | cons x t ih =>
      intro acc hall
      have hx : x.1 ≠ i := hall x (List.mem_cons_self x t)
      simp only [List.foldl_cons, if_neg hx]
      exact ih acc (fun e he => hall e (List.mem_cons_of_mem x he))

lemma cacheLookup_eq_none (cache : List (Int × Option String)) (i : Int)
    (h : ∀ e ∈ cache, e.1 ≠ i) : cacheLookup cache i = none :=
  foldl_lookup_skip i cache none h

lemma attemptsImage_id_ne_zero (item : BudgetItem)
    (h : attemptsImage item = true) : item.id ≠ 0 := by
  intro h0
  unfold attemptsImage at h
  rw [h0] at h
  simp at h

lemma buildImageCache_key_ne_zero (r : String → Option String)
    (l : List BudgetItem) : ∀ e ∈ buildImageCache r l, e.1 ≠ 0 := by
  intro e he
  rw [buildImageCache, List.mem_filterMap] at he
  obtain ⟨item, _, hc⟩ := he
  rw [cacheEntry] at hc
  by_cases ha : attemptsImage item = true
  · rw [if_pos ha] at hc
    cases him : item.imagem with
    | none => rw [him] at hc; simp at hc
    | some u =>
        rw [him] at hc
        simp only [Option.map_some'] at hc
        have he : (item.id, r u) = e := Option.some.inj hc
        subst he
        exact attemptsImage_id_ne_zero item ha
  · rw [if_neg ha] at hc
    simp at hc

lemma cacheLookup_build_zero (r : String → Option String) (l : List BudgetItem) :
    cacheLookup (buildImageCache r l) 0 = none :=
  cacheLookup_eq_none _ 0 (buildImageCache_key_ne_zero r l)

lemma didDrawCell_body0 (validItems : List BudgetItem)
    (cache : List (Int × Option String)) (data : CellHookData)
    (h1 : data.sec = TableSection.body) (h2 : data.colIndex = 0) :
    didDrawCell validItems cache data =
      match validItems.get? data.rowIndex with
      | none => Except.ok []
      | some currentItem =>
        if currentItem.id ≠ 0 then
          match cacheLookup cache currentItem.id with
          | some (some base64) =>
              if base64 ≠ "" then
                Except.ok [{ image := base64,
                             x := data.cell.x + (data.cell.width - 18) / 2,
                             y := data.cell.y + (data.cell.height - 18) / 2,
                             w := 18, h := 18 }]
              else Except.ok []
          | _ => Except.ok []
        else Except.ok []
      := by
  unfold didDrawCell
  rw [if_pos ⟨h1, h2⟩]

lemma sanitizeChar_ok (c : Char) :
    ((sanitizeChar c).isAlphanum || (sanitizeChar c == '_')) = true := by
  unfold sanitizeChar
  by_cases h : c.isAlphanum
  · rw [if_pos h, h, Bool.true_or]
  · rw [if_neg h]
    rfl

lemma generatePDF_nonempty (items : Option (List (Option BudgetItem)))
    (client : ClientInfo) (env : String → LoadEvent) (lastY : Option ℚ)
    (pageHeight : ℚ) (today : SDate) (h : sanitizeItems items ≠ []) :
    generatePDF items client env lastY pageHeight today =
      { alerted := false
        doc := some (composeDoc (sanitizeItems items) client env lastY pageHeight today)
        resolverCalls := itemImageAttempts (sanitizeItems items) ++ [logoUrl]
        savedFilename := some (pdfFilename client) } := by
  unfold generatePDF
  rw [if_neg]
  intro hlen
  exact h (List.length_eq_zero.mp hlen)

/-! ## Claims -/

/-- Claim C1: for every input item list whose sanitized form is empty,
`generatePDF` signals the empty-cart notice and returns without further
work: no document is constructed, no resolver/network call is made, and
no file is saved. -/
theorem c1_empty_abort (items : Option (List (Option BudgetItem)))
    (client : ClientInfo) (env : String → LoadEvent) (lastY : Option ℚ)
    (pageHeight : ℚ) (today : SDate) (h : sanitizeItems items = []) :
    generatePDF items client env lastY pageHeight today =
      { alerted := true, doc := none, resolverCalls := [], savedFilename := none } := by
  unfold generatePDF
  rw [if_pos]
  rw [h]
  rfl

theorem c1_empty_abort_witness :
    sanitizeItems (some [none, none]) = []
  ∧ generatePDF (some [none, none]) ⟨"", "", ""⟩ (fun _ => LoadEvent.hang)
      none 297 ⟨2024, 1, 1⟩ =
      { alerted := true, doc := none, resolverCalls := [], savedFilename := none } :=
  ⟨by decide,
   c1_empty_abort (some [none, none]) ⟨"", "", ""⟩ (fun _ => LoadEvent.hang)
     none 297 ⟨2024, 1, 1⟩ (by decide)⟩

/-- Claim C2: for every sanitized item list with at least one item, the
aggregate total rendered in the footer summary box equals the sum over
the sanitized items of each item's `total` field, a missing or
non-numeric total contributing zero. -/
theorem c2_footer_total (items : Option (List (Option BudgetItem)))
    (client : ClientInfo) (env : String → LoadEvent) (lastY : Option ℚ)
    (pageHeight : ℚ) (today : SDate) (h : sanitizeItems items ≠ []) :
    ∃ d, (generatePDF items client env lastY pageHeight today).doc = some d
      ∧ d.footerTotal = ((sanitizeItems items).map itemTotal).sum
      ∧ d.footerTotalText = formatBRL (((sanitizeItems items).map itemTotal).sum) := by
  refine ⟨composeDoc (sanitizeItems items) client env lastY pageHeight today, ?_, ?_, ?_⟩
  · rw [generatePDF_nonempty items client env lastY pageHeight today h]
  · exact totalPrice_eq_sum (sanitizeItems items)
  · exact congrArg formatBRL (totalPrice_eq_sum (sanitizeItems items))

theorem c2_footer_total_witness :
    sanitizeItems (some [some ⟨1, some "A", some "20", some 5, none, some 2, some 10⟩,
                         some ⟨2, none, none, none, none, none, none⟩]) ≠ []
  ∧ ∃ d, (generatePDF (some [some ⟨1, some "A", some "20", some 5, none, some 2, some 10⟩,
                             some ⟨2, none, none, none, none, none, none⟩])
            ⟨"", "", ""⟩ (fun _ => LoadEvent.hang) none 297 ⟨2024, 1, 1⟩).doc = some d
      ∧ d.footerTotal = ((sanitizeItems
            (some [some ⟨1, some "A", some "20", some 5, none, some 2, some 10⟩,
                   some ⟨2, none, none, none, none, none, none⟩])).map itemTotal).sum
      ∧ d.footerTotalText = formatBRL (((sanitizeItems
            (some [some ⟨1, some "A", some "20", some 5, none, some 2, some 10⟩,
                   some ⟨2, none, none, none, none, none, none⟩])).map itemTotal).sum) :=
  ⟨by decide,
   c2_footer_total (some [some ⟨1, some "A", some "20", some 5, none, some 2, some 10⟩,
                          some ⟨2, none, none, none, none, none, none⟩])
     ⟨"", "", ""⟩ (fun _ => LoadEvent.hang) none 297 ⟨2024, 1, 1⟩ (by decide)⟩

/-- Claim C7: if the vertical offset just below the table plus the fixed
footer height (40) exceeds the page's printable height, a new page is
started and the footer draws at the fixed top margin (20); otherwise it
draws directly below the table (finalY + 10) on the same page. -/
theorem c7_footer_pagination (items : Option (List (Option BudgetItem)))
    (client : ClientInfo) (env : String → LoadEvent) (lastY : Option ℚ)
    (pageHeight : ℚ) (today : SDate) (h : sanitizeItems items ≠ []) :
    ∃ d, (generatePDF items client env lastY pageHeight today).doc = some d
      ∧ ((lastY.getD 150) + 10 + 40 > pageHeight →
           d.footerOnNewPage = true ∧ d.footerY = 20)
      ∧ (¬ ((lastY.getD 150) + 10 + 40 > pageHeight) →
           d.footerOnNewPage = false ∧ d.footerY = (lastY.getD 150) + 10) := by
  refine ⟨composeDoc (sanitizeItems items) client env lastY pageHeight today, ?_, ?_, ?_⟩
  · rw [generatePDF_nonempty items client env lastY pageHeight today h]
  · intro hover
    constructor
    · show (footerPlacement (lastY.getD 150) pageHeight).2 = true
      unfold footerPlacement
      rw [if_pos hover]
    · show (footerPlacement (lastY.getD 150) pageHeight).1 = 20
      unfold footerPlacement
      rw [if_pos hover]
  · intro hfits
    constructor
    · show (footerPlacement (lastY.getD 150) pageHeight).2 = false
      unfold footerPlacement
      rw [if_neg hfits]
    · show (footerPlacement (lastY.getD 150) pageHeight).1 = (lastY.getD 150) + 10
      unfold footerPlacement
      rw [if_neg hfits]

theorem c7_footer_pagination_witness :
    sanitizeItems (some [some ⟨1, none, none, none, none, none, none⟩]) ≠ []
  ∧ ∃ d, (generatePDF (some [some ⟨1, none, none, none, none, none, none⟩])
            ⟨"", "", ""⟩ (fun _ => LoadEvent.hang) (some 250) 297 ⟨2024, 1, 1⟩).doc = some d
      ∧ (((some (250 : ℚ)).getD 150) + 10 + 40 > 297 →
           d.footerOnNewPage = true ∧ d.footerY = 20)
      ∧ (¬ (((some (250 : ℚ)).getD 150) + 10 + 40 > 297) →
           d.footerOnNewPage = false ∧ d.footerY = ((some (250 : ℚ)).getD 150) + 10) :=
  ⟨by decide,
   c7_footer_pagination (some [some ⟨1, none, none, none, none, none, none⟩])
     ⟨"", "", ""⟩ (fun _ => LoadEvent.hang) (some 250) 297 ⟨2024, 1, 1⟩ (by decide)⟩

lemma getBase64_some_eq (u : String) (env : String → LoadEvent) :
    getBase64ImageFromURL (some u) env =
      if u = "" ∨ hasHttpStart u = false then ⟨none, 0, false⟩
      else
        match env u with
        | LoadEvent.success ctxAvailable encoded t =>
            if t < 5 then ⟨onloadHandler ctxAvailable encoded, t, true⟩
            else ⟨none, 5, true⟩
        | LoadEvent.failure t =>
            if t < 5 then ⟨none, t, true⟩ else ⟨none, 5, true⟩
        | LoadEvent.hang => ⟨none, 5, true⟩ := rfl

/-- Claim C3: the image resolver always settles to a string-or-null value
and never rejects — in particular a throw inside the onload handler, a
load failure, or a missing canvas context all collapse to null — and any
input that is not a string, is empty, or does not start with `http`
resolves to null at time 0 with no network access attempted. -/
theorem c3_resolver_contract (url : Option String) (env : String → LoadEvent) :
    (invalidImageUrl url → getBase64ImageFromURL url env = ⟨none, 0, false⟩)
  ∧ (∀ u ctx e t, env u = LoadEvent.success ctx (Except.error e) t →
      (getBase64ImageFromURL (some u) env).value = none)
  ∧ (∀ u t, env u = LoadEvent.failure t →
      (getBase64ImageFromURL (some u) env).value = none)
  ∧ (∀ u enc t, env u = LoadEvent.success false enc t →
      (getBase64ImageFromURL (some u) env).value = none) := by
  refine ⟨?_, ?_, ?_, ?_⟩
  · intro h
    cases url with
    | none => rfl
    | some u =>
        simp only [invalidImageUrl] at h
        rw [getBase64_some_eq, if_pos h]
  · intro u ctx e t henv
    rw [getBase64_some_eq]
    by_cases hv : u = "" ∨ hasHttpStart u = false
    · rw [if_pos hv]
    · rw [if_neg hv]
      simp only [henv]
      by_cases ht : t < 5
      · rw [if_pos ht]
        cases ctx <;> rfl
      · rw [if_neg ht]
  · intro u t henv
    rw [getBase64_some_eq]
    by_cases hv : u = "" ∨ hasHttpStart u = false
    · rw [if_pos hv]
    · rw [if_neg hv]
      simp only [henv]
      by_cases ht : t < 5
      · rw [if_pos ht]
      · rw [if_neg ht]
  · intro u enc t henv
    rw [getBase64_some_eq]
    by_cases hv : u = "" ∨ hasHttpStart u = false
    · rw [if_pos hv]
    · rw [if_neg hv]
      simp only [henv]
      by_cases ht : t < 5
      · rw [if_pos ht]
        cases enc <;> rfl
      · rw [if_neg ht]

theorem c3_resolver_contract_witness :
    (invalidImageUrl (some "ftp://x")
      ∧ getBase64ImageFromURL (some "ftp://x") (fun _ => LoadEvent.hang) = ⟨none, 0, false⟩)
  ∧ (getBase64ImageFromURL (some "http://a")
       (fun _ => LoadEvent.success true (Except.error "tainted") 1)).value = none
  ∧ (getBase64ImageFromURL (some "http://a")
       (fun _ => LoadEvent.failure 1)).value = none
  ∧ (getBase64ImageFromURL (some "http://a")
       (fun _ => LoadEvent.success false (Except.ok "PNG") 1)).value = none :=
  ⟨⟨by decide,
    (c3_resolver_contract (some "ftp://x") (fun _ => LoadEvent.hang)).1 (by decide)⟩,
   (c3_resolver_contract (some "http://a")
      (fun _ => LoadEvent.success true (Except.error "tainted") 1)).2.1
     "http://a" true "tainted" 1 rfl,
   (c3_resolver_contract (some "http://a") (fun _ => LoadEvent.failure 1)).2.2.1
     "http://a" 1 rfl,
   (c3_resolver_contract (some "http://a")
      (fun _ => LoadEvent.success false (Except.ok "PNG") 1)).2.2.2
     "http://a" (Except.ok "PNG") 1 rfl⟩

/-- Claim C8: for an image URL whose load never settles, the 5-second
timeout branch fixes the outcome: the promise resolves to null at time 5
(so within the 5-second bound); and more generally the fixed timeout
races the load, whichever settles first determining the outcome. -/
theorem c8_timeout_bound (u : String) (env : String → LoadEvent)
    (h1 : u ≠ "") (h2 : hasHttpStart u = true) (h3 : env u = LoadEvent.hang) :
    getBase64ImageFromURL (some u) env = ⟨none, 5, true⟩
  ∧ (getBase64ImageFromURL (some u) env).time ≤ 5
  ∧ (∀ v ctx enc t, env v = LoadEvent.success ctx enc t → v ≠ "" →
       hasHttpStart v = true → t < 5 →
       getBase64ImageFromURL (some v) env = ⟨onloadHandler ctx enc, t, true⟩)
  ∧ (∀ v ctx enc t, env v = LoadEvent.success ctx enc t → v ≠ "" →
       hasHttpStart v = true → ¬ (t < 5) →
       getBase64ImageFromURL (some v) env = ⟨none, 5, true⟩) := by
  have hvalid : ¬ (u = "" ∨ hasHttpStart u = false) := by
    intro hv
    rcases hv with hv | hv
    · exact h1 hv
    · rw [h2] at hv
      simp at hv
  have hmain : getBase64ImageFromURL (some u) env = ⟨none, 5, true⟩ := by
    rw [getBase64_some_eq, if_neg hvalid]
    simp only [h3]
  refine ⟨hmain, ?_, ?_, ?_⟩
  · rw [hmain]
  · intro v ctx enc t henv hv1 hv2 ht
    have hvvalid : ¬ (v = "" ∨ hasHttpStart v = false) := by
      intro hv
      rcases hv with hv | hv
      · exact hv1 hv
      · rw [hv2] at hv
        simp at hv
    rw [getBase64_some_eq, if_neg hvvalid]
    simp only [henv]
    rw [if_pos ht]
  · intro v ctx enc t henv hv1 hv2 ht
    have hvvalid : ¬ (v = "" ∨ hasHttpStart v = false) := by
      intro hv
      rcases hv with hv | hv
      · exact hv1 hv
      · rw [hv2] at hv
        simp at hv
    rw [getBase64_some_eq, if_neg hvvalid]
    simp only [henv]
    rw [if_neg ht]

theorem c8_timeout_bound_witness :
    ("http://slow.example/img.png" ≠ "")
  ∧ hasHttpStart "http://slow.example/img.png" = true
  ∧ getBase64ImageFromURL (some "http://slow.example/img.png")
      (fun _ => LoadEvent.hang) = ⟨none, 5, true⟩
  ∧ (getBase64ImageFromURL (some "http://slow.example/img.png")
      (fun _ => LoadEvent.hang)).time ≤ 5 :=
  ⟨by decide, by decide,
   (c8_timeout_bound "http://slow.example/img.png" (fun _ => LoadEvent.hang)
      (by decide) (by decide) rfl).1,
   (c8_timeout_bound "http://slow.example/img.png" (fun _ => LoadEvent.hang)
      (by decide) (by decide) rfl).2.1⟩

/-- Claim C6 counterexample: the claim says any non-null cached image for
the row's item identity is painted; but line 160's `if (base64)` tests JS
string truthiness, so a cached non-null empty string paints nothing — the
cell stays blank instead of receiving the centered addImage call the
claim asserts. -/
theorem c6_draw_hook_counterexample :
    cacheLookup (buildImageCache (fun _ => some "")
        [⟨1, some "A", some "20", some 5, some "http://img", some 1, some 5⟩]) 1
      = some (some "")
  ∧ didDrawCell [⟨1, some "A", some "20", some 5, some "http://img", some 1, some 5⟩]
      (buildImageCache (fun _ => some "")
        [⟨1, some "A", some "20", some 5, some "http://img", some 1, some 5⟩])
      ⟨TableSection.body, 0, 0, ⟨10, 100, 22, 22⟩⟩ = Except.ok []
  ∧ ([] : List PaintOp) ≠ [{ image := "", x := 12, y := 102, w := 18, h := 18 }] := by
  refine ⟨by decide, rfl, by decide⟩

/-- Claim C6 as amended: the per-cell draw hook never throws for any row
index and cache contents; with the cache built by the pre-load loop, a
non-null, non-empty (truthy) cached image string for the row's item
identity is painted centered in the cell at the fixed 18×18 size, and a
missing row, a missing cache entry, a null entry or an empty-string entry
leaves the cell blank with no error propagating. -/
theorem c6_draw_hook_safe (r : String → Option String)
    (validItems : List BudgetItem) (data : CellHookData)
    (h1 : data.sec = TableSection.body) (h2 : data.colIndex = 0) :
    (∃ ops, didDrawCell validItems (buildImageCache r validItems) data = Except.ok ops)
  ∧ (validItems.get? data.rowIndex = none →
      didDrawCell validItems (buildImageCache r validItems) data = Except.ok [])
  ∧ (∀ item, validItems.get? data.rowIndex = some item →
      (cacheLookup (buildImageCache r validItems) item.id = none →
        didDrawCell validItems (buildImageCache r validItems) data = Except.ok [])
    ∧ (cacheLookup (buildImageCache r validItems) item.id = some none →
        didDrawCell validItems (buildImageCache r validItems) data = Except.ok [])
    ∧ (cacheLookup (buildImageCache r validItems) item.id = some (some "") →
        didDrawCell validItems (buildImageCache r validItems) data = Except.ok [])
    ∧ (∀ b64, b64 ≠ "" →
        cacheLookup (buildImageCache r validItems) item.id = some (some b64) →
        didDrawCell validItems (buildImageCache r validItems) data =
          Except.ok [{ image := b64,
                       x := data.cell.x + (data.cell.width - 18) / 2,
                       y := data.cell.y + (data.cell.height - 18) / 2,
                       w := 18, h := 18 }])) := by
  have hnf := didDrawCell_body0 validItems (buildImageCache r validItems) data h1 h2
  refine ⟨?_, ?_, ?_⟩
  · rw [hnf]
    split
    · exact ⟨[], rfl⟩
    · split
      · split
        · split
          · exact ⟨_, rfl⟩
          · exact ⟨[], rfl⟩
        · exact ⟨[], rfl⟩
      · exact ⟨[], rfl⟩
  · intro hg
    rw [hnf]
    simp only [hg]
  · intro item hg
    refine ⟨?_, ?_, ?_, ?_⟩
    · intro hc
      rw [hnf]
      simp only [hg]
      by_cases hid : item.id ≠ 0
      · rw [if_pos hid]
        simp only [hc]
      · rw [if_neg hid]
    · intro hc
      rw [hnf]
      simp only [hg]
      by_cases hid : item.id ≠ 0
      · rw [if_pos hid]
        simp only [hc]
      · rw [if_neg hid]
    · intro hc
      rw [hnf]
      simp only [hg]
      by_cases hid : item.id ≠ 0
      · rw [if_pos hid]
        simp only [hc]
        rw [if_neg (fun hne => hne rfl)]
      · rw [if_neg hid]
    · intro b64 hb hc
      have hid : item.id ≠ 0 := by
        intro h0
        rw [h0, cacheLookup_build_zero r validItems] at hc
        exact Option.noConfusion hc
      rw [hnf]
      simp only [hg]
      rw [if_pos hid]
      simp only [hc]
      rw [if_pos hb]

theorem c6_draw_hook_safe_witness :
    (⟨TableSection.body, 0, 0, ⟨10, 100, 22, 22⟩⟩ : CellHookData).sec = TableSection.body
  ∧ (⟨TableSection.body, 0, 0, ⟨10, 100, 22, 22⟩⟩ : CellHookData).colIndex = 0
  ∧ ([(⟨1, some "A", some "20", some 5, some "http://img", some 1, some 5⟩ : BudgetItem)].get? 0
       = some ⟨1, some "A", some "20", some 5, some "http://img", some 1, some 5⟩)
  ∧ ("IMGDATA" ≠ "")
  ∧ cacheLookup (buildImageCache (fun _ => some "IMGDATA")
       [⟨1, some "A", some "20", some 5, some "http://img", some 1, some 5⟩]) 1
       = some (some "IMGDATA")
  ∧ didDrawCell [⟨1, some "A", some "20", some 5, some "http://img", some 1, some 5⟩]
      (buildImageCache (fun _ => some "IMGDATA")
        [⟨1, some "A", some "20", some 5, some "http://img", some 1, some 5⟩])
      ⟨TableSection.body, 0, 0, ⟨10, 100, 22, 22⟩⟩ =
      Except.ok [{ image := "IMGDATA", x := 12, y := 102, w := 18, h := 18 }] := by
  refine ⟨rfl, rfl, by decide, by decide, by decide, ?_⟩
  have h := ((c6_draw_hook_safe (fun _ => some "IMGDATA")
      [⟨1, some "A", some "20", some 5, some "http://img", some 1, some 5⟩]
      ⟨TableSection.body, 0, 0, ⟨10, 100, 22, 22⟩⟩ rfl rfl).2.2
      ⟨1, some "A", some "20", some 5, some "http://img", some 1, some 5⟩
      (by decide)).2.2.2 "IMGDATA" (by decide) (by decide)
  rw [h]
  norm_num

/-- Claim C10: a sanitized item whose numeric id is falsy (id = 0) gets no
image resolution attempt and no cache entry even with a valid image
reference, and the draw hook paints nothing for its row, because both
guards test the id for truthiness. -/
theorem c10_falsy_id_skip (r : String → Option String)
    (validItems rest : List BudgetItem) (item : BudgetItem) (u : String)
    (data : CellHookData)
    (_h1 : item.imagem = some u) (_h2 : u ≠ "") (_h3 : hasHttpStart u = true)
    (h4 : item.id = 0)
    (h5 : data.sec = TableSection.body) (h6 : data.colIndex = 0)
    (h7 : validItems.get? data.rowIndex = some item) :
    attemptsImage item = false
  ∧ itemImageAttempts (item :: rest) = itemImageAttempts rest
  ∧ cacheLookup (buildImageCache r validItems) item.id = none
  ∧ didDrawCell validItems (buildImageCache r validItems) data = Except.ok [] := by
  have hatt : attemptsImage item = false := by
    unfold attemptsImage
    rw [h4]
    simp
  have hnid : ¬ (item.id ≠ 0) := fun hh => hh h4
  refine ⟨hatt, ?_, ?_, ?_⟩
  · unfold itemImageAttempts
    rw [List.filterMap_cons]
    simp only [hatt]
    simp
  · rw [h4]
    exact cacheLookup_build_zero r validItems
  · rw [didDrawCell_body0 validItems (buildImageCache r validItems) data h5 h6]
    simp only [h7]
    rw [if_neg hnid]

theorem c10_falsy_id_skip_witness :
    ((⟨0, some "A", some "20", some 5, some "http://img", some 1, some 5⟩ : BudgetItem).imagem
       = some "http://img")
  ∧ ("http://img" ≠ "")
  ∧ hasHttpStart "http://img" = true
  ∧ (⟨0, some "A", some "20", some 5, some "http://img", some 1, some 5⟩ : BudgetItem).id = 0
  ∧ (attemptsImage ⟨0, some "A", some "20", some 5, some "http://img", some 1, some 5⟩ = false
    ∧ itemImageAttempts [⟨0, some "A", some "20", some 5, some "http://img", some 1, some 5⟩]
        = itemImageAttempts []
    ∧ cacheLookup (buildImageCache (fun _ => some "IMGDATA")
        [⟨0, some "A", some "20", some 5, some "http://img", some 1, some 5⟩])
        (⟨0, some "A", some "20", some 5, some "http://img", some 1, some 5⟩ : BudgetItem).id = none
    ∧ didDrawCell [⟨0, some "A", some "20", some 5, some "http://img", some 1, some 5⟩]
        (buildImageCache (fun _ => some "IMGDATA")
          [⟨0, some "A", some "20", some 5, some "http://img", some 1, some 5⟩])
        ⟨TableSection.body, 0, 0, ⟨10, 100, 22, 22⟩⟩ = Except.ok []) :=
  ⟨rfl, by decide, by decide, rfl,
   c10_falsy_id_skip (fun _ => some "IMGDATA")
     [⟨0, some "A", some "20", some 5, some "http://img", some 1, some 5⟩] []
     ⟨0, some "A", some "20", some 5, some "http://img", some 1, some 5⟩ "http://img"
     ⟨TableSection.body, 0, 0, ⟨10, 100, 22, 22⟩⟩
     rfl (by decide) (by decide) rfl rfl rfl (by decide)⟩

/-- Claim C4 counterexample: the claim says characters outside
`[A-Za-z0-9]` are removed; the code substitutes an underscore for each of
them, so on "João 99% Ltda!" the code's sanitized part is
"Jo_o_99__Ltda_", not the removal result "Joo99Ltda", and it is not made
of ASCII letters/digits alone. -/
theorem c4_filename_counterexample :
    cleanClientName "João 99% Ltda!" = "Jo_o_99__Ltda_"
  ∧ specStrippedClientName "João 99% Ltda!" = "Joo99Ltda"
  ∧ cleanClientName "João 99% Ltda!" ≠ specStrippedClientName "João 99% Ltda!"
  ∧ ((cleanClientName "João 99% Ltda!").toList.all Char.isAlphanum) = false := by
  refine ⟨rfl, rfl, ?_, rfl⟩
  decide

/-- Claim C4 as amended: the output filename is the fixed quote-document
prefix plus the client name (generic fallback when absent) with every
character outside `[A-Za-z0-9]` replaced by an underscore — substituted,
not removed — truncated to 30 characters; the sanitized part therefore
contains only ASCII letters, digits and underscores. -/
theorem c4_filename_amended (items : Option (List (Option BudgetItem)))
    (client : ClientInfo) (env : String → LoadEvent) (lastY : Option ℚ)
    (pageHeight : ℚ) (today : SDate) (h : sanitizeItems items ≠ []) :
    (generatePDF items client env lastY pageHeight today).savedFilename =
      some ("Orcamento_" ++ cleanClientName client.name ++ ".pdf")
  ∧ ((cleanClientName client.name).toList.all
       (fun c => (c.isAlphanum || (c == '_')))) = true
  ∧ (cleanClientName client.name).length ≤ 30 := by
  refine ⟨?_, ?_, ?_⟩
  · rw [generatePDF_nonempty items client env lastY pageHeight today h]
    rfl
  · rw [List.all_eq_true]
    intro c hc
    have hmem : c ∈ ((if client.name = "" then "Cliente" else client.name).toList.map sanitizeChar) :=
      List.take_subset 30 _ hc
    obtain ⟨a, _, ha⟩ := List.mem_map.mp hmem
    rw [← ha]
    exact sanitizeChar_ok a
  · show (List.take 30 _).length ≤ 30
    rw [List.length_take]
    exact min_le_left 30 _

theorem c4_filename_amended_witness :
    sanitizeItems (some [some ⟨1, none, none, none, none, none, none⟩]) ≠ []
  ∧ ((generatePDF (some [some ⟨1, none, none, none, none, none, none⟩])
        ⟨"João 99% Ltda!", "", ""⟩ (fun _ => LoadEvent.hang) none 297 ⟨2024, 1, 1⟩).savedFilename =
        some ("Orcamento_" ++ cleanClientName "João 99% Ltda!" ++ ".pdf")
    ∧ ((cleanClientName "João 99% Ltda!").toList.all
         (fun c => (c.isAlphanum || (c == '_')))) = true
    ∧ (cleanClientName "João 99% Ltda!").length ≤ 30) :=
  ⟨by decide,
   c4_filename_amended (some [some ⟨1, none, none, none, none, none, none⟩])
     ⟨"João 99% Ltda!", "", ""⟩ (fun _ => LoadEvent.hang) none 297 ⟨2024, 1, 1⟩ (by decide)⟩

/-- Claim C5 counterexample: the claim says a present but unparsable date
falls back to the current date; the code only tests the field for
truthiness, so a non-empty unparsable date renders the Invalid Date
marker instead of the current date. -/
theorem c5_issue_date_counterexample :
    issueDateDisplay "not-a-date" ⟨2024, 1, 1⟩ = DateDisplay.invalid
  ∧ DateDisplay.invalid ≠ DateDisplay.date ⟨2024, 1, 1⟩ := by
  refine ⟨?_, by decide⟩
  decide

/-- Claim C5 as amended: the header date comes from the client-info date
field whenever that field is non-empty — a parsable value is shown as the
parsed calendar date, interpreted at fixed local midday so the rendered
day is timezone-independent; an unparsable non-empty value renders the
Invalid Date marker — and the current date is used only when the field is
empty.  "2024-03-05" parses to March 5, 2024; day numbers that do not
exist in their month, such as "2024-02-31" or "2023-02-29", do not parse
(they render the Invalid Date marker), while the leap day "2024-02-29"
does. -/
theorem c5_issue_date_amended (client : ClientInfo) (today : SDate) :
    (client.date = "" → issueDateDisplay client.date today = DateDisplay.date today)
  ∧ (∀ d, client.date ≠ "" → parseClientDate client.date = some d →
      issueDateDisplay client.date today = DateDisplay.date d)
  ∧ (client.date ≠ "" → parseClientDate client.date = none →
      issueDateDisplay client.date today = DateDisplay.invalid)
  ∧ parseClientDate "2024-03-05" = some ⟨2024, 3, 5⟩
  ∧ parseClientDate "2024-02-31" = none
  ∧ parseClientDate "2023-02-29" = none
  ∧ parseClientDate "2024-02-29" = some ⟨2024, 2, 29⟩
  ∧ (∀ day tz : Int, epochToLocalDay (localMiddayEpochMin day tz) tz = day)
  ∧ (∀ validItems env lastY pageHeight,
      (composeDoc validItems client env lastY pageHeight today).dateDisplay =
        issueDateDisplay client.date today) := by
  refine ⟨?_, ?_, ?_, by decide, by decide, by decide, by decide, ?_, fun _ _ _ _ => rfl⟩
  · intro h
    unfold issueDateDisplay
    rw [if_neg (fun hne => hne h)]
  · intro d hne hp
    unfold issueDateDisplay
    rw [if_pos hne]
    simp only [hp]
  · intro hne hp
    unfold issueDateDisplay
    rw [if_pos hne]
    simp only [hp]
  · intro day tz
    unfold epochToLocalDay localMiddayEpochMin
    have harith : day * 1440 + 720 - tz + tz = 720 + day * 1440 := by ring
    rw [harith, Int.add_mul_ediv_right 720 day (by norm_num : (1440 : ℤ) ≠ 0)]
    norm_num

theorem c5_issue_date_amended_witness :
    ((⟨"Maria", "", "2024-03-05"⟩ : ClientInfo).date ≠ ""
  ∧ parseClientDate (⟨"Maria", "", "2024-03-05"⟩ : ClientInfo).date = some ⟨2024, 3, 5⟩)
  ∧ issueDateDisplay (⟨"Maria", "", "2024-03-05"⟩ : ClientInfo).date ⟨2024, 1, 1⟩ =
      DateDisplay.date ⟨2024, 3, 5⟩ :=
  ⟨⟨by decide, by decide⟩,
   (c5_issue_date_amended ⟨"Maria", "", "2024-03-05"⟩ ⟨2024, 1, 1⟩).2.1
     ⟨2024, 3, 5⟩ (by decide) (by decide)⟩

/-- Claim C9: adding a product and incrementing/decrementing quantity each
preserve the invariant total = quantity × unit price with an integer
quantity of at least 1, so every cart item handed to the renderer
satisfies it. -/
theorem c9_cart_invariant (product : Product) (prev : List CartItem)
    (idv delta : Int) (h : ∀ item ∈ prev, itemInvariant item) :
    (∀ item ∈ addItem product prev, itemInvariant item)
  ∧ (∀ item ∈ updateQuantity idv delta prev, itemInvariant item) := by
  constructor
  · intro item hmem
    unfold addItem at hmem
    split at hmem
    · rw [List.mem_map] at hmem
      obtain ⟨a, ha, hfa⟩ := hmem
      by_cases hid : a.id = product.id
      · rw [if_pos hid] at hfa
        rw [← hfa]
        refine ⟨rfl, ?_⟩
        show 1 ≤ a.quantity + 1
        have h2 := (h a ha).2
        omega
      · rw [if_neg hid] at hfa
        rw [← hfa]
        exact h a ha
    · rw [List.mem_append] at hmem
      rcases hmem with hmem | hmem
      · exact h item hmem
      · rw [List.mem_singleton] at hmem
        rw [hmem]
        refine ⟨?_, le_refl 1⟩
        show product.valor = ((1 : Int) : ℚ) * product.valor
        rw [Int.cast_one, one_mul]
  · intro item hmem
    unfold updateQuantity at hmem
    rw [List.mem_map] at hmem
    obtain ⟨a, ha, hfa⟩ := hmem
    by_cases hid : a.id = idv
    · rw [if_pos hid] at hfa
      rw [← hfa]
      refine ⟨rfl, ?_⟩
      exact le_max_left 1 (a.quantity + delta)
    · rw [if_neg hid] at hfa
      rw [← hfa]
      exact h a ha

theorem c9_cart_invariant_witness :
    (∀ item ∈ ([⟨⟨1, "A", "20", 5, none⟩, 2, 10⟩] : List CartItem), itemInvariant item)
  ∧ (∀ item ∈ addItem ⟨3, "B", "10", 7, none⟩ [⟨⟨1, "A", "20", 5, none⟩, 2, 10⟩],
       itemInvariant item)
  ∧ (∀ item ∈ updateQuantity 1 (-1) [⟨⟨1, "A", "20", 5, none⟩, 2, 10⟩],
       itemInvariant item) :=
  ⟨by norm_num [itemInvariant],
   (c9_cart_invariant ⟨3, "B", "10", 7, none⟩ [⟨⟨1, "A", "20", 5, none⟩, 2, 10⟩]
      1 (-1) (by norm_num [itemInvariant])).1,
   (c9_cart_invariant ⟨3, "B", "10", 7, none⟩ [⟨⟨1, "A", "20", 5, none⟩, 2, 10⟩]
      1 (-1) (by norm_num [itemInvariant])).2⟩

end ArtBrasil
